import Mathlib

/-!
Verification of the zombar/scraper repository against its natural-language
specification.  Go strings are modelled as lists of characters (`Str`); the
Go standard library and all network / AI / database I/O are modelled as
explicit oracle parameters, so every repository function becomes a pure,
executable Lean function that mirrors the Go control flow statement by
statement.
-/

namespace Scraper

/-- Go strings, modelled as lists of characters. -/
abbrev Str := List Char

/-- Model of Go `strings.HasPrefix`. -/
def strStartsWith : Str → Str → Bool
  | _, [] => true
  | [], _ :: _ => false
  | c :: cs, p :: ps => c = p && strStartsWith cs ps

/-- Model of Go `strings.Contains`: does `sub` occur contiguously in `s`? -/
def strContains : Str → Str → Bool
  | s, sub =>
    match s with
    | [] => strStartsWith [] sub
    | c :: rest => strStartsWith (c :: rest) sub || strContains rest sub

/-- Model of Go `strings.Count` for a nonempty pattern: number of
non-overlapping occurrences of `sub` in `s`, scanning left to right. -/
def strCount : Str → Str → Nat
  | s, sub =>
    match s with
    | [] => 0
    | c :: rest =>
      if strStartsWith (c :: rest) sub then
        1 + strCount (List.drop (sub.length - 1) rest) sub
      else
        strCount rest sub
termination_by s _ => s.length
decreasing_by
  · simp only [List.length_cons]
    have h := List.length_drop (sub.length - 1) rest
    omega
  · simp only [List.length_cons]; omega

/-- Whitespace characters recognised by Go `unicode.IsSpace` in the Latin-1
range (the only ones exercised by this development). -/
def isGoSpace (c : Char) : Bool :=
  c = ' ' || c = '\t' || c = '\n' || c.toNat = 11 || c.toNat = 12 ||
  c = '\r' || c.toNat = 133 || c.toNat = 160

/-- Model of `len(strings.Fields(s))`: the number of maximal runs of
non-whitespace characters. -/
def fieldsCount : Str → Nat
  | [] => 0
  | c :: rest =>
    if isGoSpace c then fieldsCount rest
    else 1 + fieldsCount (rest.dropWhile (fun d => !isGoSpace d))
termination_by s => s.length
decreasing_by
  all_goals
    simp only [List.length_cons]
    have h : (rest.dropWhile (fun d => !isGoSpace d)).length ≤ rest.length :=
      (List.dropWhile_sublist (fun d => !isGoSpace d)).length_le
    omega

/-- Model of Go `strings.ToLower` (ASCII range, which covers every pattern
the scorer compares against). -/
def strToLower (s : Str) : Str := s.map Char.toLower

/-- Model of Go `strings.TrimSpace`. -/
def strTrim (s : Str) : Str :=
  ((s.dropWhile isGoSpace).reverse.dropWhile isGoSpace).reverse

/-- Model of Go `strings.Join` with separator `sep`. -/
def strJoin (sep : Str) : List Str → Str
  | [] => []
  | [x] => x
  | x :: y :: rest => x ++ sep ++ strJoin sep (y :: rest)

/-- Go `len(s)` counts UTF-8 bytes, not runes. -/
def utf8Len (s : Str) : Nat :=
  (s.map (fun c =>
    if c.toNat < 128 then 1
    else if c.toNat < 2048 then 2
    else if c.toNat < 65536 then 3
    else 4)).sum

theorem strStartsWith_iff_isPrefix (s p : Str) :
    strStartsWith s p = true ↔ p <+: s := by
  induction p generalizing s with
  | nil => simp [strStartsWith]
  | cons ph pt ih =>
    cases s with
    | nil => simp [strStartsWith]
    | cons sh st =>
      simp only [strStartsWith, Bool.and_eq_true, decide_eq_true_eq, ih,
        List.cons_prefix_cons]
      constructor
      · rintro ⟨h1, h2⟩; exact ⟨h1.symm, h2⟩
      · rintro ⟨h1, h2⟩; exact ⟨h1.symm, h2⟩

theorem strContains_iff_isInfix (s sub : Str) :
    strContains s sub = true ↔ sub <:+: s := by
  induction s with
  | nil =>
    simp only [strContains, strStartsWith_iff_isPrefix, List.prefix_nil,
      List.infix_nil]
  | cons c rest ih =>
    simp only [strContains, Bool.or_eq_true, strStartsWith_iff_isPrefix, ih,
      List.infix_cons_iff]

/-! ## Rule-based quality-score fallback (`scoreContentFallback` in scraper.go)

The Go function iterates over the map literal `blockedDomains`.  Go map
iteration order is unspecified and randomised at runtime, so the embedding
takes the iteration order as an explicit parameter: a single program run
corresponds to one permutation of the map entries. -/

/-- Result quadruple of `scoreContentFallback`.  Every score the Go
function manipulates is a sum of multiples of 0.1 starting from 0.5, so the
`float64` score is modelled in exact arithmetic scaled by ten: the `score`
field holds tenths (0.5 is stored as 5, the hard-block value 0.1 as 1). -/
structure ScoreResult where
  score : Int
  reason : Str
  categories : List Str
  maliciousIndicators : List Str
deriving DecidableEq

/-- The entries of the `blockedDomains` map literal, in source order
(src/scraper.go lines 655-677). -/
def blockedDomainsList : List (Str × Str) :=
  [ (("facebook.com").toList, ("social_media").toList),
    (("twitter.com").toList, ("social_media").toList),
    (("x.com").toList, ("social_media").toList),
    (("instagram.com").toList, ("social_media").toList),
    (("tiktok.com").toList, ("social_media").toList),
    (("reddit.com").toList, ("forum").toList),
    (("linkedin.com").toList, ("social_media").toList),
    (("pinterest.com").toList, ("social_media").toList),
    (("snapchat.com").toList, ("social_media").toList),
    (("bet").toList, ("gambling").toList),
    (("casino").toList, ("gambling").toList),
    (("poker").toList, ("gambling").toList),
    (("betting").toList, ("gambling").toList),
    (("xxx").toList, ("adult_content").toList),
    (("porn").toList, ("adult_content").toList),
    (("adult").toList, ("adult_content").toList),
    (("cannabis").toList, ("drugs").toList),
    (("weed").toList, ("drugs").toList),
    (("ebay.com").toList, ("marketplace").toList),
    (("amazon.com").toList, ("marketplace").toList),
    (("craigslist.org").toList, ("marketplace").toList) ]

/-- The `qualityDomains` slice (src/scraper.go line 730). -/
def qualityDomainsList : List Str :=
  [ (".edu").toList, (".gov").toList, (".org").toList, ("wikipedia").toList,
    ("arxiv").toList, ("github").toList, ("stackoverflow").toList ]

/-- The `technicalKeywords` slice (src/scraper.go line 741). -/
def technicalKeywordsList : List Str :=
  [ ("documentation").toList, ("tutorial").toList, ("guide").toList,
    ("research").toList, ("study").toList, ("analysis").toList,
    ("technical").toList ]

def catLowQuality : Str := ("low_quality").toList
def catInformational : Str := ("informational").toList
def catMinimalContent : Str := ("minimal_content").toList
def catSpam : Str := ("spam").toList
def catReference : Str := ("reference").toList
def catTrustedSource : Str := ("trusted_source").toList
def catTechnical : Str := ("technical").toList
def catEducational : Str := ("educational").toList
def catGeneral : Str := ("general").toList
def indSpamKeywords : Str := ("spam_keywords").toList

/-- The branch of `scoreContentFallback` that runs when no blocked domain
substring matched the lowercased URL (src/scraper.go lines 690-779).  It
does not depend on the map iteration order. -/
def scoreUnblocked (urlLower titleLower contentLower content : Str) : ScoreResult :=
  let contentLength := utf8Len content
  let wordCount := fieldsCount content
  let s1 : Int :=
    if contentLength < 100 then 5 - 3
    else if contentLength < 500 then 5 - 1
    else if contentLength > 1000 then 5 + 2
    else 5
  let r1 : List Str :=
    if contentLength < 100 then [("Very short content").toList]
    else if contentLength < 500 then [("Short content").toList]
    else if contentLength > 1000 then [("Substantial content").toList]
    else []
  let c1 : List Str :=
    if contentLength < 100 then [catLowQuality]
    else if contentLength < 500 then []
    else if contentLength > 1000 then [catInformational]
    else []
  let s2 := if wordCount < 20 then s1 - 2 else s1
  let c2 := if wordCount < 20 then c1 ++ [catMinimalContent] else c1
  let spam : Bool :=
    decide (strCount contentLower (("click here").toList) > 2) ||
    decide (strCount contentLower (("buy now").toList) > 2) ||
    decide (strCount contentLower (("limited offer").toList) > 1)
  let s3 := if spam then s2 - 3 else s2
  let r3 := if spam then r1 ++ [("Spam indicators detected").toList] else r1
  let c3 := if spam then c2 ++ [catSpam] else c2
  let i3 : List Str := if spam then [indSpamKeywords] else []
  let exclamationCount := strCount content [('!')]
  let loud : Bool :=
    decide (exclamationCount > wordCount / 10) && decide (exclamationCount > 5)
  let s4 := if loud then s3 - 2 else s3
  let r4 := if loud then r3 ++ [("Excessive punctuation").toList] else r3
  let quality : Bool := qualityDomainsList.any (fun d => strContains urlLower d)
  let s5 := if quality then s4 + 3 else s4
  let r5 := if quality then r4 ++ [("Quality domain detected").toList] else r4
  let c5 := if quality then c3 ++ [catReference, catTrustedSource] else c3
  let tech : Bool := technicalKeywordsList.any
    (fun k => strContains titleLower k || strContains contentLower k)
  let s6 := if tech then s5 + 1 else s5
  let c6 := if tech then c5 ++ [catTechnical, catEducational] else c5
  let s7 := if s6 < 0 then (0 : Int) else s6
  let s8 := if s7 > 10 then (10 : Int) else s7
  let reason :=
    if r5 = [] then ("Rule-based assessment (Ollama unavailable)").toList
    else ("Rule-based: ").toList ++ strJoin (("; ").toList) r5
  let cats :=
    if c6 = [] then
      if s8 ≥ 6 then [catInformational] else [catGeneral]
    else c6
  { score := s8, reason := reason, categories := cats,
    maliciousIndicators := i3 }

/-- Model of `scoreContentFallback` (src/scraper.go lines 644-780).
`order` is the iteration order of the `blockedDomains` map on this
evaluation: any permutation of `blockedDomainsList`. -/
def scoreContentFallback (order : List (Str × Str))
    (targetURL title content : Str) : ScoreResult :=
  let urlLower := strToLower targetURL
  let titleLower := strToLower title
  let contentLower := strToLower content
  match order.find? (fun e => strContains urlLower e.1) with
  | some e =>
    { score := 1
      reason := ("Blocked content type detected: ").toList ++ e.2
      categories := [e.2, catLowQuality]
      maliciousIndicators := [e.2] }
  | none => scoreUnblocked urlLower titleLower contentLower content

/-- Helper: a permutation preserves whether `find?` comes up empty. -/
theorem find_none_of_perm {α} (p : α → Bool) {l1 l2 : List α}
    (h : l1.Perm l2) : l1.find? p = none ↔ l2.find? p = none := by
  simp only [List.find?_eq_none]
  constructor <;> intro ha x hx
  · exact ha x (h.mem_iff.mpr hx)
  · exact ha x (h.mem_iff.mp hx)

/-- One runtime iteration order of the `blockedDomains` map that presents
the `xxx` entry before the `x.com` entry. -/
def blockedDomainsAltOrder : List (Str × Str) :=
  (("xxx").toList, ("adult_content").toList) ::
    blockedDomainsList.filter (fun e => e.1 ≠ ("xxx").toList)

/-- Claim C2 counterexample: `scoreContentFallback` is NOT a fully
reproducible function of (url, title, content).  The URL
`https://xxx.com` contains the block-listed substrings `xxx`
(adult_content) and `x.com` (social_media); `blockedDomainsAltOrder` is a
permutation of the `blockedDomains` map entries (hence a possible Go map
iteration order), and the two orders give different reason, categories and
malicious indicators. -/
theorem c2_fallback_not_reproducible_counterexample :
    blockedDomainsAltOrder.Perm blockedDomainsList ∧
    scoreContentFallback blockedDomainsList
        (("https://xxx.com").toList) [] [] ≠
      scoreContentFallback blockedDomainsAltOrder
        (("https://xxx.com").toList) [] [] := by
  decide

/-- Claim C2, amended: the numeric score of `scoreContentFallback` is a
reproducible function of (url, title, content) — any two iteration orders
of the `blockedDomains` map yield the same score — and the whole result
(score, reason, categories, malicious indicators) is reproducible whenever
the lowercased URL contains no block-listed substring; when block-listed
substrings of different categories match, reason, categories and
indicators depend on the unspecified map iteration order. -/
theorem c2_fallback_score_reproducible (o1 o2 : List (Str × Str))
    (h1 : o1.Perm blockedDomainsList) (h2 : o2.Perm blockedDomainsList)
    (url title content : Str) :
    (scoreContentFallback o1 url title content).score =
      (scoreContentFallback o2 url title content).score ∧
    (o1.find? (fun e => strContains (strToLower url) e.1) = none →
      scoreContentFallback o1 url title content =
        scoreContentFallback o2 url title content) := by
  have hperm : o1.Perm o2 := h1.trans h2.symm
  have hnone := find_none_of_perm (fun e => strContains (strToLower url) e.1) hperm
  cases hf1 : o1.find? (fun e => strContains (strToLower url) e.1) with
  | none =>
    have hf2 : o2.find? (fun e => strContains (strToLower url) e.1) = none :=
      hnone.mp hf1
    refine ⟨?_, fun _ => ?_⟩ <;>
      simp only [scoreContentFallback, hf1, hf2]
  | some e1 =>
    cases hf2 : o2.find? (fun e => strContains (strToLower url) e.1) with
    | none =>
      exact absurd (hnone.mpr hf2) (by simp [hf1])
    | some e2 =>
      refine ⟨?_, fun hcontra => ?_⟩
      · simp only [scoreContentFallback, hf1, hf2]
      · exact absurd hcontra (by simp [hf1])

/-- Witness for `c2_fallback_score_reproducible` at the two concrete
iteration orders and the concrete URL `https://xxx.com`. -/
theorem c2_fallback_score_reproducible_witness :
    (scoreContentFallback blockedDomainsList
        (("https://xxx.com").toList) [] []).score =
      (scoreContentFallback blockedDomainsAltOrder
        (("https://xxx.com").toList) [] []).score ∧
    (blockedDomainsList.find?
        (fun e => strContains (strToLower (("https://xxx.com").toList)) e.1) =
          none →
      scoreContentFallback blockedDomainsList
          (("https://xxx.com").toList) [] [] =
        scoreContentFallback blockedDomainsAltOrder
          (("https://xxx.com").toList) [] []) :=
  c2_fallback_score_reproducible blockedDomainsList blockedDomainsAltOrder
    (List.Perm.refl blockedDomainsList) (by decide)
    (("https://xxx.com").toList) [] []

/-! ## HTML document model and field extractors

`golang.org/x/net/html` exposes a node tree; `FirstChild`/`NextSibling`
chains are modelled as children lists.  `url.Parse`/`ResolveReference`
(standard library) are modelled as an oracle `resolve` parameter. -/

/-- Node kinds of `golang.org/x/net/html.Node`. -/
inductive NType where
  | text
  | document
  | element
  | comment
  | doctype
deriving DecidableEq

/-- An HTML node: kind, `Data`, `Attr` key/value pairs, children. -/
inductive HNode where
  | mk (ntype : NType) (data : Str) (attrs : List (Str × Str))
      (children : List HNode)

def HNode.ntype : HNode → NType
  | .mk t _ _ _ => t

def HNode.data : HNode → Str
  | .mk _ d _ _ => d

def HNode.attrs : HNode → List (Str × Str)
  | .mk _ _ a _ => a

def HNode.children : HNode → List HNode
  | .mk _ _ _ cs => cs

/-- The Go per-node attribute loops assign on every key match, so the last
attribute with the given key wins; absent keys leave the zero string. -/
def lastAttr (attrs : List (Str × Str)) (key : Str) : Str :=
  attrs.foldl (fun acc a => if a.1 = key then a.2 else acc) []

/-- Core of `extractTitle` (src/scraper.go lines 231-247): the traversal
closure `f` over a worklist of nodes, threading the mutable `title`
variable.  On an element named `title` with a first child the Go code
overwrites `title` with that child's `Data` and returns without
descending; otherwise it descends into the children. -/
def titleVisit : List HNode → Str → Str
  | [], acc => acc
  | .mk t d _ cs :: rest, acc =>
    if t = NType.element ∧ d = ("title").toList then
      match cs with
      | c :: _ => titleVisit rest c.data
      | [] => titleVisit rest acc
    else titleVisit rest (titleVisit cs acc)

/-- Model of `extractTitle` (src/scraper.go lines 231-247). -/
def extractTitle (doc : HNode) : Str := strTrim (titleVisit [doc] [])

/-- Title fallback in `Scrape` (src/scraper.go lines 100-103): an empty
extracted title is replaced by the target URL. -/
def scrapeTitle (doc : HNode) (targetURL : Str) : Str :=
  let t := extractTitle doc
  if t = [] then targetURL else t

/-- Specification-side list of title texts: the `Data` of the first child
of every `title` element that has a child, in the order the traversal
meets them (the traversal does not descend into such elements). -/
def titleTextsL : List HNode → List Str
  | [] => []
  | .mk t d _ cs :: rest =>
    (if t = NType.element ∧ d = ("title").toList then
      match cs with
      | c :: _ => [c.data]
      | [] => []
    else titleTextsL cs) ++ titleTextsL rest

theorem getLastD_append {α} (xs ys : List α) (d : α) :
    (xs ++ ys).getLastD d = ys.getLastD (xs.getLastD d) := by
  cases ys with
  | nil => simp
  | cons y yt =>
    simp only [List.getLastD_eq_getLast?, List.getLast?_append]
    cases h : (y :: yt).getLast? with
    | none => simp [List.getLast?_eq_none_iff] at h
    | some v => simp [h, Option.or]

theorem titleVisit_eq_getLastD (ns : List HNode) (acc : Str) :
    titleVisit ns acc = (titleTextsL ns).getLastD acc := by
  induction ns, acc using titleVisit.induct
  case case1 => simp [titleVisit, titleTextsL]
  case case2 t d a rest acc h c ctail ih =>
    rw [titleVisit.eq_def, titleTextsL.eq_def]
    dsimp only
    rw [if_pos h, if_pos h, ih, List.cons_append, List.nil_append,
      List.getLastD_cons]
  case case3 t d a rest acc h ih =>
    rw [titleVisit.eq_def, titleTextsL.eq_def]
    dsimp only
    rw [if_pos h, if_pos h, ih, List.nil_append]
  case case4 t d a cs rest acc h ihcs ihrest =>
    rw [ihcs] at ihrest
    rw [titleVisit.eq_def, titleTextsL.eq_def]
    dsimp only
    rw [if_neg h, if_neg h, ihcs, ihrest, getLastD_append]

/-- A parsed document holding two title elements, each with a text child:
`<title>First</title>` followed by `<title>Second</title>`. -/
def twoTitleDoc : HNode :=
  .mk .document [] []
    [ .mk .element (("html").toList) []
        [ .mk .element (("head").toList) []
            [ .mk .element (("title").toList) []
                [ .mk .text (("First").toList) [] [] ],
              .mk .element (("title").toList) []
                [ .mk .text (("Second").toList) [] [] ] ] ] ]

/-- Claim C7 counterexample: for a document containing two title elements,
the extracted title is NOT the trimmed text of the first title element.
The first title text of `twoTitleDoc` is `First`, already trimmed, yet
`extractTitle` returns `Second`: the traversal closure overwrites the
title variable at every title element it meets. -/
theorem c7_title_first_counterexample :
    (titleTextsL [twoTitleDoc]).head? = some (("First").toList) ∧
    strTrim (("First").toList) = ("First").toList ∧
    extractTitle twoTitleDoc = ("Second").toList ∧
    ("Second").toList ≠ ("First").toList := by
  refine ⟨?_, by decide, ?_, by decide⟩
  · simp [twoTitleDoc, titleTextsL, HNode.data]
  · simp only [extractTitle, twoTitleDoc]
    simp [titleVisit, HNode.data]
    decide

/-- Claim C7, amended: for every HTML document the extracted title equals
the trimmed `Data` of the first child of the LAST title element (among
those having a child) met in pre-order — not the first — and when that
trimmed text is empty (in particular when no title text is present) the
title used by `Scrape` falls back to the target URL. -/
theorem c7_title_is_last_title_text (doc : HNode) (url : Str) :
    extractTitle doc = strTrim ((titleTextsL [doc]).getLastD []) ∧
    (extractTitle doc = [] → scrapeTitle doc url = url) ∧
    (extractTitle doc ≠ [] → scrapeTitle doc url = extractTitle doc) := by
  refine ⟨?_, fun h => ?_, fun h => ?_⟩
  · unfold extractTitle
    rw [titleVisit_eq_getLastD]
  · simp [scrapeTitle, h]
  · simp only [scrapeTitle]
    rw [if_neg h]

/-- Witness for `c7_title_is_last_title_text` at the concrete document
`twoTitleDoc`, discharging the nonempty-title hypothesis. -/
theorem c7_title_is_last_title_text_witness :
    scrapeTitle twoTitleDoc (("https://example.com").toList) =
      extractTitle twoTitleDoc :=
  (c7_title_is_last_title_text twoTitleDoc (("https://example.com").toList)).2.2
    (by
      simp only [extractTitle, twoTitleDoc]
      simp [titleVisit, HNode.data]
      decide)

/-! ## Fuzzy tag search (`SearchImagesByTags` in src/db/db.go)

The stored `images` table is modelled as the list of rows in the order the
query scans them (`ORDER BY created_at DESC`), with the `tags` JSON column
already decoded to a list. -/

/-- One row of the `images` table with its tag list decoded. -/
structure ImageRow where
  id : Str
  url : Str
  altText : Str
  summary : Str
  tags : List Str
  base64Data : Str
deriving DecidableEq

/-- The matching loop of `SearchImagesByTags` (src/db/db.go lines
385-399): some search tag and some stored tag contain one another
case-insensitively. -/
def tagsMatchQuery (searchTags tags : List Str) : Bool :=
  searchTags.any (fun st =>
    tags.any (fun tg =>
      strContains (strToLower tg) (strToLower st) ||
      strContains (strToLower st) (strToLower tg)))

/-- Model of `SearchImagesByTags` (src/db/db.go lines 350-419). -/
def SearchImagesByTags (rows : List ImageRow) (searchTags : List Str) :
    List ImageRow :=
  if searchTags = [] then []
  else rows.filter (fun r => tagsMatchQuery searchTags r.tags)

/-- Specification-side relation, following the words of the spec: the two
tags are related by case-insensitive substring containment in either
direction. -/
def specTagRelated (qt st : Str) : Prop :=
  strToLower qt <:+: strToLower st ∨ strToLower st <:+: strToLower qt

instance (qt st : Str) : Decidable (specTagRelated qt st) :=
  decidable_of_iff
    (strContains (strToLower st) (strToLower qt) = true ∨
      strContains (strToLower qt) (strToLower st) = true)
    (or_congr (strContains_iff_isInfix _ _) (strContains_iff_isInfix _ _))

/-- Specification-side match predicate: an image matches if any query tag
relates to any stored tag. -/
def specImageMatches (searchTags : List Str) (r : ImageRow) : Prop :=
  ∃ qt ∈ searchTags, ∃ st ∈ r.tags, specTagRelated qt st

instance (searchTags : List Str) (r : ImageRow) :
    Decidable (specImageMatches searchTags r) := by
  unfold specImageMatches
  infer_instance

theorem tagsMatchQuery_iff (searchTags : List Str) (r : ImageRow) :
    tagsMatchQuery searchTags r.tags = true ↔ specImageMatches searchTags r := by
  simp only [tagsMatchQuery, specImageMatches, specTagRelated,
    List.any_eq_true, Bool.or_eq_true, strContains_iff_isInfix]

/-- Claim C8: for every non-empty query tag list, `SearchImagesByTags`
returns exactly the stored images (in scan order) for which some query tag
and some stored tag are related by case-insensitive substring containment
in either direction; in particular query `cat` matches stored tag
`wildcat`, and a stored tag set containing only `animal` does not match
query `dog`. -/
theorem c8_search_images_fuzzy (rows : List ImageRow)
    (searchTags : List Str) (h : searchTags ≠ []) :
    SearchImagesByTags rows searchTags =
      rows.filter (fun r => decide (specImageMatches searchTags r)) ∧
    tagsMatchQuery [("cat").toList] [("wildcat").toList] = true ∧
    tagsMatchQuery [("dog").toList] [("animal").toList] = false := by
  refine ⟨?_, by decide, by decide⟩
  rw [SearchImagesByTags, if_neg h]
  refine List.filter_congr fun r hr => ?_
  rcases hd : decide (specImageMatches searchTags r) with _ | _
  · rcases hm : tagsMatchQuery searchTags r.tags with _ | _
    · rfl
    · exact absurd (of_decide_eq_false hd) (not_not_intro ((tagsMatchQuery_iff searchTags r).mp hm))
  · exact (tagsMatchQuery_iff searchTags r).mpr (of_decide_eq_true hd)

/-- Witness for `c8_search_images_fuzzy`: a store holding a `wildcat`
image and an `animal` image, queried with the single tag `cat`, returns
exactly the `wildcat` image. -/
theorem c8_search_images_fuzzy_witness :
    SearchImagesByTags
        [ ⟨("i1").toList, ("https://a/1.png").toList, [], [],
            [("wildcat").toList], []⟩,
          ⟨("i2").toList, ("https://a/2.png").toList, [], [],
            [("animal").toList], []⟩ ]
        [("cat").toList] =
      [ ⟨("i1").toList, ("https://a/1.png").toList, [], [],
          [("wildcat").toList], []⟩ ] := by
  rw [(c8_search_images_fuzzy
    [ ⟨("i1").toList, ("https://a/1.png").toList, [], [],
        [("wildcat").toList], []⟩,
      ⟨("i2").toList, ("https://a/2.png").toList, [], [],
        [("animal").toList], []⟩ ]
    [("cat").toList] (by decide)).1]
  decide

/-! ## Data model (src/models/models.go) -/

/-- `models.ImageInfo`. -/
structure ImageInfo where
  id : Str
  url : Str
  altText : Str
  summary : Str
  tags : List Str
  base64Data : Str
deriving DecidableEq

/-- `models.PageMetadata`. -/
structure PageMetadata where
  description : Str := []
  keywords : List Str := []
  author : Str := []
  publishedDate : Str := []
deriving DecidableEq

/-- `models.LinkScore`; the score is in tenths, as in `ScoreResult`. -/
structure LinkScore where
  url : Str
  score : Int
  reason : Str
  categories : List Str
  isRecommended : Bool
  maliciousIndicators : List Str
  aiUsed : Bool
deriving DecidableEq

/-- `models.ScrapedData`; timestamps are abstract clock readings. -/
structure ScrapedData where
  id : Str
  url : Str
  title : Str
  content : Str
  images : List ImageInfo
  links : List Str
  fetchedAt : Nat
  createdAt : Nat
  processingTime : Nat
  cached : Bool
  metadata : PageMetadata
  score : Option LinkScore
deriving DecidableEq

/-! ## Persistence store (src/db/db.go `SaveScrapedData` with the schema of
src/db migrations)

The SQLite state is two tables.  `scraped_data` is keyed by primary id
with a UNIQUE url column; `images.scrape_id` references
`scraped_data(id)` with ON DELETE CASCADE and no ON UPDATE action, and
`db.New` runs `PRAGMA foreign_keys = ON`, so an UPDATE that changes a
parent id still referenced by child rows fails the statement with a
foreign-key violation.  `SaveScrapedData` is one transaction: on any
statement error it rolls back, which the caller observes as an unchanged
state plus the returned error. -/

/-- A `scraped_data` row; the serialized JSON `data` column is modelled by
storing the record itself. -/
structure ParentRow where
  id : Str
  url : Str
  stored : ScrapedData
  createdAt : Nat
  updatedAt : Nat
deriving DecidableEq

/-- An `images` table row. -/
structure ImgRow where
  id : Str
  scrapeId : Str
  url : Str
  altText : Str
  summary : Str
  tags : List Str
  base64Data : Str
  createdAt : Nat
  updatedAt : Nat
deriving DecidableEq

/-- The database state. -/
structure DBState where
  parents : List ParentRow
  images : List ImgRow
deriving DecidableEq

/-- The upsert statement of `SaveScrapedData` (src/db/db.go lines
87-107): insert, or on url conflict replace id / data / updated-at
preserving created-at.  Under `PRAGMA foreign_keys = ON`, replacing the
id while `images` rows still reference the old id violates the
children's foreign key (no ON UPDATE action) and fails the statement. -/
def upsertParent (now : Nat) (data : ScrapedData) (st : DBState) :
    Except Str DBState :=
  match st.parents.find? (fun p => p.url = data.url) with
  | none =>
    if st.parents.any (fun p => p.id = data.id) then
      .error (("failed to save data: UNIQUE constraint failed").toList)
    else
      .ok { st with parents :=
        st.parents ++ [⟨data.id, data.url, data, data.fetchedAt, now⟩] }
  | some old =>
    if old.id ≠ data.id ∧ st.images.any (fun i => i.scrapeId = old.id) then
      .error (("failed to save data: FOREIGN KEY constraint failed").toList)
    else if old.id ≠ data.id ∧ st.parents.any (fun p => p.id = data.id) then
      .error (("failed to save data: UNIQUE constraint failed").toList)
    else
      .ok { st with parents := st.parents.map (fun p =>
        if p.url = data.url then
          { p with id := data.id, stored := data, updatedAt := now }
        else p) }

/-- The image-insert loop of `SaveScrapedData` (src/db/db.go lines
116-148): images with empty ids are skipped; a duplicate image id fails
the statement. -/
def insertImages (now : Nat) (scrapeId : Str) (imgs : List ImageInfo)
    (st : DBState) : Except Str DBState :=
  match imgs with
  | [] => .ok st
  | img :: rest =>
    if img.id = [] then insertImages now scrapeId rest st
    else if st.images.any (fun i => i.id = img.id) then
      .error (("failed to save image: UNIQUE constraint failed").toList)
    else
      insertImages now scrapeId rest
        { st with images := st.images ++
            [⟨img.id, scrapeId, img.url, img.altText, img.summary,
              img.tags, img.base64Data, now, now⟩] }

/-- Model of `SaveScrapedData` (src/db/db.go lines 72-156): one
transaction that (a) upserts the parent row, (b) deletes the `images`
rows whose `scrape_id` equals the NEW record id `data.ID`, (c) reinserts
the record's images.  An error anywhere rolls the transaction back: the
caller's state is unchanged and the error is returned. -/
def SaveScrapedData (now : Nat) (data : ScrapedData) (st : DBState) :
    Except Str DBState :=
  match upsertParent now data st with
  | .error e => .error e
  | .ok st1 =>
    insertImages now data.id data.images
      { st1 with images := st1.images.filter (fun i => ¬ i.scrapeId = data.id) }

/-- First scrape of the URL: record id `a` with one image `i1`. -/
def c1rec1 : ScrapedData :=
  { id := ("a").toList, url := ("https://u.example/page").toList
    title := ("t").toList, content := ("c").toList
    images := [⟨("i1").toList, ("https://u.example/1.png").toList,
      [], [], [], []⟩]
    links := [], fetchedAt := 1, createdAt := 1, processingTime := 0
    cached := false, metadata := {}, score := none }

/-- Re-scrape of the same URL: fresh record id `b` with one image `i2`. -/
def c1rec2 : ScrapedData :=
  { id := ("b").toList, url := ("https://u.example/page").toList
    title := ("t").toList, content := ("c2").toList
    images := [⟨("i2").toList, ("https://u.example/2.png").toList,
      [], [], [], []⟩]
    links := [], fetchedAt := 2, createdAt := 2, processingTime := 0
    cached := false, metadata := {}, score := none }

/-- Database state after the first save. -/
def c1StateAfterFirst : DBState :=
  { parents := [⟨("a").toList, ("https://u.example/page").toList, c1rec1,
      1, 1⟩]
    images := [⟨("i1").toList, ("a").toList,
      ("https://u.example/1.png").toList, [], [], [], [], 1, 1⟩] }

/-- Claim C1 (code bug): re-saving the same URL does NOT leave the child
image set equal to the latest record's images.  The first save of
`c1rec1` succeeds and stores image `i1` under record id `a`.  The
re-save of `c1rec2` (same URL, new id `b`, image `i2`) deletes images for
the NEW id `b` — never the superseded id `a` — and its upsert changes the
parent id from `a` to `b` while the `i1` row still references `a`, so
with foreign keys enabled the transaction fails and rolls back: the store
keeps the superseded record `a` and its image `i1`, not `c1rec2` and
`i2`.  (Were foreign-key enforcement absent, the save would instead
leave `i1` orphaned under the superseded id `a` next to `i2`.) -/
theorem c1_save_rescrape_code_bug :
    SaveScrapedData 1 c1rec1 { parents := [], images := [] } =
      .ok c1StateAfterFirst ∧
    SaveScrapedData 2 c1rec2 c1StateAfterFirst =
      .error (("failed to save data: FOREIGN KEY constraint failed").toList) ∧
    c1StateAfterFirst.images.map ImgRow.scrapeId = [("a").toList] ∧
    c1rec2.images.map ImageInfo.id = [("i2").toList] := by
  exact ⟨rfl, rfl, by decide, by decide⟩

/-! ## Remaining field extractors (src/scraper.go) -/

/-- Model of Go `strings.Split` on a single separator character. -/
def splitChar (sep : Char) : Str → List Str
  | [] => [[]]
  | c :: rest =>
    match splitChar sep rest with
    | [] => [[]]
    | h :: t => if c = sep then [] :: h :: t else (c :: h) :: t

/-- Core of `extractText` (src/scraper.go lines 250-271): collect trimmed
nonempty text-node data followed by a space, in traversal order, skipping
the subtrees of `script` and `style` elements. -/
def extractTextVisit : List HNode → Str
  | [] => []
  | .mk t d _ cs :: rest =>
    (if t = NType.text ∧ strTrim d ≠ [] then strTrim d ++ [' '] else []) ++
    (if t = NType.element ∧
        (d = ("script").toList ∨ d = ("style").toList) then []
      else extractTextVisit cs) ++
    extractTextVisit rest

/-- Model of `extractText` (src/scraper.go lines 250-271). -/
def extractText (doc : HNode) : Str := strTrim (extractTextVisit [doc])

/-- Core of `extractImages` (src/scraper.go lines 274-306): every `img`
element whose (last) `src` attribute is nonempty and resolves against the
base URL contributes one record, in traversal order.  `resolve` models
`resolveURL` over `net/url`. -/
def extractImagesVisit (resolve : Str → Option Str) :
    List HNode → List ImageInfo
  | [] => []
  | .mk t d attrs cs :: rest =>
    (if t = NType.element ∧ d = ("img").toList then
      let src := lastAttr attrs (("src").toList)
      let alt := lastAttr attrs (("alt").toList)
      if src ≠ [] then
        match resolve src with
        | some u => [⟨[], u, alt, [], [], []⟩]
        | none => []
      else []
    else []) ++
    extractImagesVisit resolve cs ++ extractImagesVisit resolve rest

/-- Model of `extractImages` (src/scraper.go lines 274-306). -/
def extractImages (resolve : Str → Option Str) (doc : HNode) :
    List ImageInfo :=
  extractImagesVisit resolve [doc]

/-- The first `href` attribute with a nonempty value (the Go loop breaks
there; an empty-valued `href` is skipped). -/
def firstHref (attrs : List (Str × Str)) : Option Str :=
  (attrs.find? (fun a =>
    decide (a.1 = ("href").toList) && decide (a.2 ≠ []))).map (fun a => a.2)

/-- Core of `extractLinks` (src/scraper.go lines 390-415): anchors in
traversal order, resolved against the base URL, deduplicated by
first-seen order via the `seen` set (= membership in the accumulator). -/
def extractLinksVisit (resolve : Str → Option Str) :
    List HNode → List Str → List Str
  | [], acc => acc
  | .mk t d attrs cs :: rest, acc =>
    let acc1 :=
      if t = NType.element ∧ d = ("a").toList then
        match firstHref attrs with
        | some href =>
          match resolve href with
          | some link => if acc.contains link then acc else acc ++ [link]
          | none => acc
        | none => acc
      else acc
    extractLinksVisit resolve rest (extractLinksVisit resolve cs acc1)

/-- Model of `extractLinks` (src/scraper.go lines 390-415). -/
def extractLinks (resolve : Str → Option Str) (doc : HNode) : List Str :=
  extractLinksVisit resolve [doc] []

/-- Core of `extractMetadata` (src/scraper.go lines 418-467): each `meta`
element with nonempty content fills the first empty matching field
(first-non-empty-wins); a `meta` element with empty content returns
without descending into its children. -/
def extractMetadataVisit : List HNode → PageMetadata → PageMetadata
  | [], m => m
  | .mk t d attrs cs :: rest, m =>
    if t = NType.element ∧ d = ("meta").toList then
      let nameA := strToLower (lastAttr attrs (("name").toList))
      let propA := strToLower (lastAttr attrs (("property").toList))
      let contentA := lastAttr attrs (("content").toList)
      if contentA = [] then extractMetadataVisit rest m
      else
        let m1 :=
          if nameA = ("description").toList ∨
              propA = ("og:description").toList then
            if m.description = [] then { m with description := contentA }
            else m
          else if nameA = ("keywords").toList then
            if m.keywords = [] then
              { m with keywords := (splitChar (',') contentA).map strTrim }
            else m
          else if nameA = ("author").toList ∨
              propA = ("article:author").toList then
            if m.author = [] then { m with author := contentA } else m
          else if propA = ("article:published_time").toList then
            if m.publishedDate = [] then { m with publishedDate := contentA }
            else m
          else m
        extractMetadataVisit rest (extractMetadataVisit cs m1)
    else extractMetadataVisit rest (extractMetadataVisit cs m)

/-- Model of `extractMetadata` (src/scraper.go lines 418-467). -/
def extractMetadata (doc : HNode) : PageMetadata :=
  extractMetadataVisit [doc] {}

/-! ## Oracle environment

Network, AI and database behaviour is supplied as explicit oracles, one
per external call the Go code makes.  A Go execution corresponds to one
choice of oracles; theorems quantify over all of them. -/

/-- Result of the page GET: status, status text, and the `html.Parse`
outcome on the body (`none` models a body read error — the only way
`html.Parse` fails). -/
structure FetchResp where
  status : Nat
  statusText : Str
  doc : Option HNode

/-- Result of an image GET: status, status text, advertised
`Content-Length` (-1 when unknown) and the body bytes. -/
structure ImgResp where
  status : Nat
  statusText : Str
  contentLength : Int
  body : List Nat

/-- Scraper configuration (src/scraper.go `Config`); timeouts are not
modelled (wall-clock behaviour), the byte ceiling and threshold are. -/
structure ScraperConfig where
  enableImageAnalysis : Bool
  maxImageSizeBytes : Nat
  linkScoreThreshold : Int

/-- The oracles for one run of the pipeline. -/
structure ScrapeEnv where
  /-- `url.Parse` abstracted to the scheme of the parsed URL
  (`none` = parse error). -/
  urlParse : Str → Option Str
  /-- The page GET (`httpClient.Do` + `html.Parse`). -/
  fetch : Str → Except Str FetchResp
  /-- `ollamaClient.ExtractContent`. -/
  extractContent : Str → Except Str Str
  /-- `ollamaClient.Generate` on the link-filtering prompt, keyed by the
  prompt inputs (page title, page content, marshalled link list). -/
  generate : Str → Str → List Str → Except Str Str
  /-- `json.Unmarshal` of the AI response into `[]string`: `none` is a
  decode error, `some none` a JSON `null` (nil slice), `some (some xs)`
  an array. -/
  decodeStrList : Str → Option (Option (List Str))
  /-- `ollamaClient.ScoreContent (url, title, content)`, yielding
  (score in tenths, reason, categories, indicators). -/
  scoreAI : Str → Str → Str → Except Str (Int × Str × List Str × List Str)
  /-- The image GET. -/
  imgFetch : Str → Except Str ImgResp
  /-- `ollamaClient.GenerateWithVision`, keyed by image bytes and the alt
  text appended to the fixed prompt. -/
  vision : List Nat → Str → Except Str Str
  /-- `json.Unmarshal` of the vision response into the
  `{summary, tags}` schema; `none` is a decode error. -/
  decodeSummaryTags : Str → Option (Str × List Str)
  /-- `resolveURL` against the page's base URL. -/
  resolve : Str → Option Str
  /-- `base64.StdEncoding.EncodeToString`. -/
  b64 : List Nat → Str
  /-- The successive `uuid.New` draws for images, by image index. -/
  newImageId : Nat → Str
  /-- The `uuid.New` draw for the record id. -/
  recordId : Str
  /-- The `time.Now()` draws and measured duration. -/
  nowFetched : Nat
  nowCreated : Nat
  procTime : Nat
  /-- The iteration order of the `blockedDomains` map this run
  (a permutation of `blockedDomainsList`). -/
  blockedOrder : List (Str × Str)

/-! ## Ollama client (src/models/models.go embedded ollama client) -/

/-- Model of `stripMarkdownCodeBlocks`: trim, and when the trimmed text
is longer than three bytes and starts with a three-backtick fence, drop
the first and last lines and trim again. -/
def stripMarkdownCodeBlocks (s : Str) : Str :=
  let t := strTrim s
  if 3 < t.length ∧ strStartsWith t (("```").toList) then
    let lines := splitChar ('\n') t
    if 2 < lines.length then
      strTrim (strJoin [('\n')] (lines.dropLast.drop 1))
    else t
  else t

/-- Model of `AnalyzeImage` (ollama client): a failed vision call returns
an error; otherwise the response is stripped of markdown fences and
decoded; on decode failure the raw stripped response becomes the summary
with empty tags, and no error is reported. -/
def AnalyzeImage (env : ScrapeEnv) (imageData : List Nat) (altText : Str) :
    Except Str (Str × List Str) :=
  match env.vision imageData altText with
  | .error e => .error ((("failed to analyze image: ").toList) ++ e)
  | .ok response =>
    let r := stripMarkdownCodeBlocks response
    match env.decodeSummaryTags r with
    | none => .ok (r, [])
    | some st => .ok st

/-! ## Image pipeline (src/scraper.go `downloadImage` / `processImages`) -/

/-- Model of `downloadImage` (src/scraper.go lines 470-509): errors on
transport failure, non-200 status, an advertised length above the byte
ceiling, or actual bytes above the ceiling (read through a reader capped
at ceiling+1). -/
def downloadImage (env : ScrapeEnv) (cfg : ScraperConfig) (imageURL : Str) :
    Except Str (List Nat) :=
  match env.imgFetch imageURL with
  | .error e => .error ((("failed to fetch image: ").toList) ++ e)
  | .ok resp =>
    if resp.status ≠ 200 then
      .error ((("HTTP error: ").toList) ++ resp.statusText)
    else if resp.contentLength > (cfg.maxImageSizeBytes : Int) then
      .error (("image too large (content length)").toList)
    else
      let imageData := resp.body.take (cfg.maxImageSizeBytes + 1)
      if cfg.maxImageSizeBytes < imageData.length then
        .error (("image too large: exceeds max bytes").toList)
      else .ok imageData

/-- The loop body of `processImages` (src/scraper.go lines 520-556) for
the image at position `idx`: assign a fresh id, download, analyze; a
download failure keeps the image as-is, an analysis failure keeps the
image with its payload. -/
def processOneImage (env : ScrapeEnv) (cfg : ScraperConfig)
    (idx : Nat) (img0 : ImageInfo) : ImageInfo :=
  let img := { img0 with id := env.newImageId idx }
  match downloadImage env cfg img.url with
  | .error _ => img
  | .ok imageData =>
    let img2 := { img with base64Data := env.b64 imageData }
    match AnalyzeImage env imageData img.altText with
    | .error _ => img2
    | .ok st => { img2 with summary := st.1, tags := st.2 }

/-- Model of `processImages` (src/scraper.go lines 512-559): when image
analysis is disabled, the input list is returned untouched; otherwise
the loop builds the output in discovery order, one entry per input. -/
def processImages (env : ScrapeEnv) (cfg : ScraperConfig)
    (images : List ImageInfo) : List ImageInfo :=
  if cfg.enableImageAnalysis = false then images
  else images.enum.map (fun p => processOneImage env cfg p.1 p.2)

/-! ## Link sanitizer (src/scraper.go `extractLinksWithOllama`) -/

/-- Model of `extractLinksWithOllama` (src/scraper.go lines 309-387).
`json.Marshal` of a `[]string` cannot fail, so that fallback branch is
not modelled.  A decoded JSON `null` leaves the nil slice, which the code
normalises to the empty list; a decoded array is returned as-is, with no
check against the links extracted from the page. -/
def extractLinksWithOllama (env : ScrapeEnv) (doc : HNode)
    (pageTitle pageContent : Str) : List Str :=
  let allLinks := extractLinks env.resolve doc
  if allLinks = [] then allLinks
  else
    match env.generate pageTitle pageContent allLinks with
    | .error _ => allLinks
    | .ok response =>
      match env.decodeStrList response with
      | none => allLinks
      | some none => []
      | some (some xs) => xs

/-! ## Scrape orchestrator (src/scraper.go `Scrape`) -/

/-- Model of `Scrape` (src/scraper.go lines 64-172).  The request
construction step (`http.NewRequestWithContext`) cannot fail for a URL
that `url.Parse` accepted, so it is folded into the fetch oracle. -/
def Scrape (env : ScrapeEnv) (cfg : ScraperConfig) (targetURL : Str) :
    Except Str ScrapedData :=
  match env.urlParse targetURL with
  | none => .error (("invalid URL").toList)
  | some scheme =>
    if scheme ≠ ("http").toList ∧ scheme ≠ ("https").toList then
      .error (("URL must be http or https").toList)
    else
      match env.fetch targetURL with
      | .error e => .error ((("failed to fetch URL: ").toList) ++ e)
      | .ok resp =>
        if resp.status ≠ 200 then
          .error ((("HTTP error: ").toList) ++ resp.statusText)
        else
          match resp.doc with
          | none => .error (("failed to parse HTML").toList)
          | some doc =>
            let title := scrapeTitle doc targetURL
            let textContent := extractText doc
            let content :=
              match env.extractContent textContent with
              | .ok c => c
              | .error _ => textContent
            let images := processImages env cfg (extractImages env.resolve doc)
            let links := extractLinksWithOllama env doc title content
            let metadata := extractMetadata doc
            let score : LinkScore :=
              match env.scoreAI targetURL title content with
              | .ok q =>
                { url := targetURL, score := q.1, reason := q.2.1
                  categories := q.2.2.1
                  isRecommended := q.1 ≥ cfg.linkScoreThreshold
                  maliciousIndicators := q.2.2.2, aiUsed := true }
              | .error _ =>
                let f := scoreContentFallback env.blockedOrder targetURL
                  title content
                { url := targetURL, score := f.score, reason := f.reason
                  categories := f.categories
                  isRecommended := f.score ≥ cfg.linkScoreThreshold
                  maliciousIndicators := f.maliciousIndicators
                  aiUsed := false }
            .ok { id := env.recordId, url := targetURL, title := title
                  content := content, images := images, links := links
                  fetchedAt := env.nowFetched, createdAt := env.nowCreated
                  processingTime := env.procTime, cached := false
                  metadata := metadata, score := some score }

/-- When validation, fetch and parse succeed, `Scrape` returns a record,
whatever the AI oracles do. -/
theorem scrape_ok_of_stages (env : ScrapeEnv) (cfg : ScraperConfig)
    (targetURL scheme : Str) (resp : FetchResp) (doc : HNode)
    (hp : env.urlParse targetURL = some scheme)
    (hs : scheme = ("http").toList ∨ scheme = ("https").toList)
    (hf : env.fetch targetURL = .ok resp)
    (hst : resp.status = 200) (hd : resp.doc = some doc) :
    ∃ d, Scrape env cfg targetURL = .ok d := by
  have hs2 : ¬(scheme ≠ ("http").toList ∧ scheme ≠ ("https").toList) := by
    rcases hs with h | h <;> simp [h]
  unfold Scrape
  rw [hp]
  simp only [hf, hst, hd, if_neg hs2]
  exact ⟨_, rfl⟩

/-- Claim C3: `Scrape` returns an error only from the Validating,
Fetching, or Parsing stages — unparsable URL, non-http(s) scheme,
transport failure, non-200 status, or unparseable body — and whenever
those stages succeed it returns a record no matter how the four AI
augmentation oracles (content cleaning, link filtering, image analysis,
scoring) behave, since each degrades to its deterministic fallback. -/
theorem c3_scrape_fails_only_in_early_stages (env : ScrapeEnv)
    (cfg : ScraperConfig) (targetURL : Str) :
    ((Scrape env cfg targetURL).isOk = false →
      env.urlParse targetURL = none ∨
      (∃ scheme, env.urlParse targetURL = some scheme ∧
        scheme ≠ ("http").toList ∧ scheme ≠ ("https").toList) ∨
      (∃ e, env.fetch targetURL = .error e) ∨
      (∃ resp, env.fetch targetURL = .ok resp ∧ resp.status ≠ 200) ∨
      (∃ resp, env.fetch targetURL = .ok resp ∧ resp.doc = none)) ∧
    (∀ scheme resp doc,
      env.urlParse targetURL = some scheme →
      (scheme = ("http").toList ∨ scheme = ("https").toList) →
      env.fetch targetURL = .ok resp →
      resp.status = 200 →
      resp.doc = some doc →
      (Scrape env cfg targetURL).isOk = true) := by
  constructor
  · intro hfail
    unfold Scrape at hfail
    split at hfail
    · exact Or.inl (by assumption)
    · next scheme heq =>
      split at hfail
      · next hcond => exact Or.inr (Or.inl ⟨scheme, heq, hcond⟩)
      · split at hfail
        · next e heq2 => exact Or.inr (Or.inr (Or.inl ⟨e, heq2⟩))
        · next resp heq2 =>
          split at hfail
          · next hst =>
            exact Or.inr (Or.inr (Or.inr (Or.inl ⟨resp, heq2, hst⟩)))
          · split at hfail
            · next hd =>
              exact Or.inr (Or.inr (Or.inr (Or.inr ⟨resp, heq2, hd⟩)))
            · next doc hd => simp [Except.isOk, Except.toBool] at hfail
  · intro scheme resp doc hp hs hf hst hd
    obtain ⟨d, hok⟩ := scrape_ok_of_stages env cfg targetURL scheme resp doc
      hp hs hf hst hd
    simp [hok, Except.isOk, Except.toBool]

/-- An oracle environment whose page fetch succeeds with a trivially
parsed page while every AI call and every image download fails. -/
def allFailEnv : ScrapeEnv :=
  { urlParse := fun _ => some (("https").toList)
    fetch := fun _ => .ok ⟨200, [], some (.mk .text [] [] [])⟩
    extractContent := fun _ => .error (("ollama unavailable").toList)
    generate := fun _ _ _ => .error (("ollama unavailable").toList)
    decodeStrList := fun _ => none
    scoreAI := fun _ _ _ => .error (("ollama unavailable").toList)
    imgFetch := fun _ => .error (("connection refused").toList)
    vision := fun _ _ => .error (("ollama unavailable").toList)
    decodeSummaryTags := fun _ => none
    resolve := fun s => some s
    b64 := fun _ => []
    newImageId := fun _ => ("img-id").toList
    recordId := ("rec-id").toList
    nowFetched := 0, nowCreated := 0, procTime := 0
    blockedOrder := blockedDomainsList }

/-- The default configuration values of `DefaultConfig`
(src/scraper.go lines 33-43): image analysis on, 10 MiB ceiling,
threshold 0.5 (5 tenths). -/
def defaultCfg : ScraperConfig := ⟨true, 10485760, 5⟩

/-- Witness for `c3_scrape_fails_only_in_early_stages`: with every AI
oracle failing but a successful fetch and parse, `Scrape` still returns
a record. -/
theorem c3_scrape_fails_only_in_early_stages_witness :
    (Scrape allFailEnv defaultCfg (("https://ok.example/").toList)).isOk =
      true :=
  (c3_scrape_fails_only_in_early_stages allFailEnv defaultCfg
      (("https://ok.example/").toList)).2
    (("https").toList) ⟨200, [], some (.mk .text [] [] [])⟩
    (.mk .text [] [] []) rfl (Or.inr rfl) rfl rfl rfl

/-- Every image the extractor produces is bare: no id yet, no summary,
no tags, no payload.  This discharges the bare-image hypothesis of the
image-pipeline claim for every list the pipeline actually receives. -/
theorem extractImagesVisit_bare (resolve : Str → Option Str)
    (ns : List HNode) :
    ∀ img ∈ extractImagesVisit resolve ns,
      img.id = [] ∧ img.summary = [] ∧ img.tags = [] ∧
        img.base64Data = [] := by
  induction ns using extractImagesVisit.induct resolve with
  | case1 => intro img h; simp [extractImagesVisit] at h
  | case2 t d attrs cs rest ihcs ihrest =>
    intro img h
    rw [extractImagesVisit] at h
    rcases List.mem_append.mp h with h1 | h2
    · rcases List.mem_append.mp h1 with h0 | hcs
      · by_cases hc : t = NType.element ∧ d = ("img").toList
        · rw [if_pos hc] at h0
          dsimp only at h0
          by_cases hsrc : lastAttr attrs (("src").toList) ≠ []
          · rw [if_pos hsrc] at h0
            cases hres : resolve (lastAttr attrs (("src").toList)) with
            | some u =>
              rw [hres] at h0
              have h3 := List.mem_singleton.mp h0
              subst h3
              exact ⟨rfl, rfl, rfl, rfl⟩
            | none => rw [hres] at h0; simp at h0
          · rw [if_neg hsrc] at h0; simp at h0
        · rw [if_neg hc] at h0; simp at h0
      · exact ihcs img hcs
    · exact ihrest img h2

/-- A failed download keeps the image unchanged except for its freshly
assigned id. -/
theorem processOneImage_download_failed (env : ScrapeEnv)
    (cfg : ScraperConfig) (idx : Nat) (img0 : ImageInfo)
    (h : (downloadImage env cfg img0.url).isOk = false) :
    processOneImage env cfg idx img0 =
      { img0 with id := env.newImageId idx } := by
  unfold processOneImage
  dsimp only
  cases hdl : downloadImage env cfg img0.url with
  | error e => rfl
  | ok d => rw [hdl] at h; simp [Except.isOk, Except.toBool] at h

/-- Whatever the download and analysis outcomes, the processed image
keeps its URL and alt text and carries the assigned id. -/
theorem processOneImage_url_alt_id (env : ScrapeEnv)
    (cfg : ScraperConfig) (idx : Nat) (img0 : ImageInfo) :
    (processOneImage env cfg idx img0).url = img0.url ∧
    (processOneImage env cfg idx img0).altText = img0.altText ∧
    (processOneImage env cfg idx img0).id = env.newImageId idx := by
  unfold processOneImage
  dsimp only
  cases downloadImage env cfg img0.url with
  | error e => exact ⟨rfl, rfl, rfl⟩
  | ok d =>
    dsimp only
    cases AnalyzeImage env d img0.altText with
    | error e2 => exact ⟨rfl, rfl, rfl⟩
    | ok st => exact ⟨rfl, rfl, rfl⟩

/-- Claim C5: with image analysis enabled, `processImages` returns one
output per input in discovery order; an image whose download fails —
and the download fails both when the advertised content length exceeds
the byte ceiling and when the actual bytes read exceed it — is retained
with its URL, alt text and assigned id but (for the bare images the
extractor produces) empty summary, empty tags and no payload. -/
theorem c5_processImages_retains_failed_downloads (env : ScrapeEnv)
    (cfg : ScraperConfig) (images : List ImageInfo)
    (hen : cfg.enableImageAnalysis = true)
    (hbare : ∀ img ∈ images,
      img.summary = [] ∧ img.tags = [] ∧ img.base64Data = []) :
    (processImages env cfg images).length = images.length ∧
    (∀ i src, images[i]? = some src →
      ∃ out, (processImages env cfg images)[i]? = some out ∧
        out.url = src.url ∧ out.altText = src.altText ∧
        out.id = env.newImageId i ∧
        ((downloadImage env cfg src.url).isOk = false →
          out.summary = [] ∧ out.tags = [] ∧ out.base64Data = [])) ∧
    (∀ u r, env.imgFetch u = .ok r → r.status = 200 →
      (cfg.maxImageSizeBytes : Int) < r.contentLength →
      (downloadImage env cfg u).isOk = false) ∧
    (∀ u r, env.imgFetch u = .ok r → r.status = 200 →
      r.contentLength ≤ (cfg.maxImageSizeBytes : Int) →
      cfg.maxImageSizeBytes < r.body.length →
      (downloadImage env cfg u).isOk = false) := by
  have hpi : processImages env cfg images =
      images.enum.map (fun p => processOneImage env cfg p.1 p.2) := by
    simp [processImages, hen]
  refine ⟨?_, ?_, ?_, ?_⟩
  · simp [hpi]
  · intro i src hsrc
    have hmem : src ∈ images := by
      exact List.getElem?_mem hsrc
    obtain ⟨hsum, htags, hb64⟩ := hbare src hmem
    refine ⟨processOneImage env cfg i src, ?_, ?_⟩
    · rw [hpi, List.getElem?_map, List.getElem?_enum, hsrc]
      rfl
    · obtain ⟨hu, ha, hid⟩ := processOneImage_url_alt_id env cfg i src
      refine ⟨hu, ha, hid, fun hfailed => ?_⟩
      rw [processOneImage_download_failed env cfg i src hfailed]
      exact ⟨hsum, htags, hb64⟩
  · intro u r hf hst hlen
    unfold downloadImage
    rw [hf]
    simp only [hst]
    rw [if_neg (by simp), if_pos hlen]
    simp [Except.isOk, Except.toBool]
  · intro u r hf hst hlen1 hlen2
    unfold downloadImage
    rw [hf]
    simp only [hst]
    rw [if_neg (by simp), if_neg (by omega)]
    have htake : (r.body.take (cfg.maxImageSizeBytes + 1)).length =
        cfg.maxImageSizeBytes + 1 := by
      simp [List.length_take]
      omega
    rw [if_pos (by rw [htake]; omega)]
    simp [Except.isOk, Except.toBool]

/-- Environment whose single image download advertises 3 bytes but whose
body holds 6 — over the 5-byte ceiling of `c5Cfg`. -/
def c5Env : ScrapeEnv :=
  { allFailEnv with imgFetch := fun _ => .ok ⟨200, [], 3, [0, 0, 0, 0, 0, 0]⟩ }

/-- A 5-byte image ceiling with analysis enabled. -/
def c5Cfg : ScraperConfig := ⟨true, 5, 5⟩

/-- A bare extracted image, as `extractImages` produces them. -/
def c5Img : ImageInfo :=
  ⟨[], ("https://a.example/big.png").toList, ("alt").toList, [], [], []⟩

/-- Witness for `c5_processImages_retains_failed_downloads`: the 6-byte
body exceeds the 5-byte ceiling (checked on actual bytes read), the
download fails, and the image is still in the output with empty summary,
empty tags and no payload. -/
theorem c5_processImages_retains_failed_downloads_witness :
    (processImages c5Env c5Cfg [c5Img]).length = 1 ∧
    (downloadImage c5Env c5Cfg c5Img.url).isOk = false ∧
    (∃ out, (processImages c5Env c5Cfg [c5Img])[0]? = some out ∧
      out.url = c5Img.url ∧ out.altText = c5Img.altText ∧
      out.id = c5Env.newImageId 0 ∧
      ((downloadImage c5Env c5Cfg c5Img.url).isOk = false →
        out.summary = [] ∧ out.tags = [] ∧ out.base64Data = [])) := by
  have h := c5_processImages_retains_failed_downloads c5Env c5Cfg [c5Img]
    rfl (by decide)
  refine ⟨h.1, ?_, h.2.1 0 c5Img rfl⟩
  exact h.2.2.2 c5Img.url ⟨200, [], 3, [0, 0, 0, 0, 0, 0]⟩ rfl rfl
    (by decide) (by decide)

/-- Environment whose vision call returns a response that is not valid
JSON for the `{summary, tags}` schema. -/
def c6Env : ScrapeEnv :=
  { allFailEnv with
    vision := fun _ _ => .ok (("not json").toList)
    decodeSummaryTags := fun _ => none }

/-- Claim C6 counterexample: on a decode failure `AnalyzeImage` does NOT
fall back to an empty summary — it returns the raw (markdown-stripped)
response text as the summary.  Here the vision call succeeds with the
undecodable text `not json` and the result's summary is that text, which
is nonempty. -/
theorem c6_analyze_decode_failure_counterexample :
    c6Env.decodeSummaryTags
        (stripMarkdownCodeBlocks (("not json").toList)) = none ∧
    AnalyzeImage c6Env [] [] = .ok ((("not json").toList), []) ∧
    ("not json").toList ≠ [] := by
  refine ⟨rfl, rfl, by decide⟩

/-- Claim C6, amended: a failed AI vision call makes `AnalyzeImage`
return an error (which `processImages` absorbs, keeping the image with
its payload and unchanged summary and tags); a decode failure is not
propagated as an error, but the fallback is the markdown-stripped raw
response as the summary with empty tags, not an empty summary. -/
theorem c6_analyze_image_decode_fallback (env : ScrapeEnv)
    (imageData : List Nat) (altText : Str) :
    (∀ e, env.vision imageData altText = .error e →
      AnalyzeImage env imageData altText =
        .error ((("failed to analyze image: ").toList) ++ e)) ∧
    (∀ resp, env.vision imageData altText = .ok resp →
      env.decodeSummaryTags (stripMarkdownCodeBlocks resp) = none →
      AnalyzeImage env imageData altText =
        .ok (stripMarkdownCodeBlocks resp, [])) ∧
    (∀ resp st, env.vision imageData altText = .ok resp →
      env.decodeSummaryTags (stripMarkdownCodeBlocks resp) = some st →
      AnalyzeImage env imageData altText = .ok st) ∧
    (∀ resp, env.vision imageData altText = .ok resp →
      (AnalyzeImage env imageData altText).isOk = true) ∧
    (∀ cfg idx img0 bytes,
      downloadImage env cfg img0.url = .ok bytes →
      (AnalyzeImage env bytes img0.altText).isOk = false →
      processOneImage env cfg idx img0 =
        { img0 with id := env.newImageId idx
                    base64Data := env.b64 bytes }) := by
  refine ⟨?_, ?_, ?_, ?_, ?_⟩
  · intro e hv
    unfold AnalyzeImage
    rw [hv]
  · intro resp hv hdec
    unfold AnalyzeImage
    rw [hv]
    dsimp only
    rw [hdec]
  · intro resp st hv hdec
    unfold AnalyzeImage
    rw [hv]
    dsimp only
    rw [hdec]
  · intro resp hv
    unfold AnalyzeImage
    rw [hv]
    dsimp only
    cases env.decodeSummaryTags (stripMarkdownCodeBlocks resp) with
    | none => rfl
    | some st => rfl
  · intro cfg idx img0 bytes hdl han
    unfold processOneImage
    dsimp only
    rw [hdl]
    dsimp only
    cases ha2 : AnalyzeImage env bytes img0.altText with
    | error e => rfl
    | ok st => rw [ha2] at han; simp [Except.isOk, Except.toBool] at han

/-- Witness for `c6_analyze_image_decode_fallback` at the concrete
environment `c6Env`: the undecodable response becomes the summary, with
no error. -/
theorem c6_analyze_image_decode_fallback_witness :
    AnalyzeImage c6Env [] [] =
      .ok (stripMarkdownCodeBlocks (("not json").toList), []) :=
  (c6_analyze_image_decode_fallback c6Env [] []).2.1
    (("not json").toList) rfl rfl

/-- All strings a document carries: node data and attribute keys and
values, in traversal order. -/
def docStringsVisit : List HNode → List Str
  | [] => []
  | .mk _ d attrs cs :: rest =>
    d :: (attrs.map (fun a => a.1) ++ attrs.map (fun a => a.2)) ++
      docStringsVisit cs ++ docStringsVisit rest

/-- All strings a document carries. -/
def docStrings (doc : HNode) : List Str := docStringsVisit [doc]

/-- A page with a single anchor to one article. -/
def c10Doc : HNode :=
  .mk .document [] []
    [ .mk .element (("a").toList)
        [ (("href").toList, ("https://site.example/article").toList) ] [] ]

/-- The URL the AI response injects; it appears nowhere in `c10Doc`. -/
def evilURL : Str := ("https://evil.example/phish").toList

/-- Environment whose link-filtering call answers with a JSON array
holding `evilURL`, and whose decoder decodes exactly that response. -/
def c10Env : ScrapeEnv :=
  { allFailEnv with
    generate := fun _ _ _ =>
      .ok (("[\x22https://evil.example/phish\x22]").toList)
    decodeStrList := fun r =>
      if r = ("[\x22https://evil.example/phish\x22]").toList then
        some (some [("https://evil.example/phish").toList])
      else none }

/-- Claim C10: when the AI link-filtering call succeeds and its response
decodes as a JSON string array, `extractLinksWithOllama` returns exactly
the decoded array (a decoded `null` normalised to the empty list), with
no validation against the page's links; concretely, for `c10Doc` the
returned list is exactly the injected URL, which is not among the
extracted links and occurs in no string of the document. -/
theorem c10_link_filter_no_subset_validation (env : ScrapeEnv)
    (doc : HNode) (pageTitle pageContent : Str) :
    (∀ resp xs,
      extractLinks env.resolve doc ≠ [] →
      env.generate pageTitle pageContent (extractLinks env.resolve doc) =
        .ok resp →
      env.decodeStrList resp = some (some xs) →
      extractLinksWithOllama env doc pageTitle pageContent = xs) ∧
    (∀ resp,
      extractLinks env.resolve doc ≠ [] →
      env.generate pageTitle pageContent (extractLinks env.resolve doc) =
        .ok resp →
      env.decodeStrList resp = some none →
      extractLinksWithOllama env doc pageTitle pageContent = []) ∧
    (extractLinksWithOllama c10Env c10Doc [] [] = [evilURL] ∧
      evilURL ∉ extractLinks c10Env.resolve c10Doc ∧
      ∀ s ∈ docStrings c10Doc, strContains s evilURL = false) := by
  have hlinks : extractLinks c10Env.resolve c10Doc =
      [("https://site.example/article").toList] := by
    simp [extractLinks, extractLinksVisit, c10Doc, firstHref, c10Env,
      allFailEnv]
  refine ⟨?_, ?_, ?_, ?_, ?_⟩
  · intro resp xs hne hg hd
    unfold extractLinksWithOllama
    rw [if_neg hne, hg]
    dsimp only
    rw [hd]
  · intro resp hne hg hd
    unfold extractLinksWithOllama
    rw [if_neg hne, hg]
    dsimp only
    rw [hd]
  · unfold extractLinksWithOllama
    rw [hlinks]
    rw [if_neg (by decide)]
    dsimp only [c10Env]
    rw [if_pos rfl]
    rfl
  · rw [hlinks]
    decide
  · intro s hs
    have : s ∈ docStrings c10Doc := hs
    revert this
    simp [docStrings, docStringsVisit, c10Doc]
    rintro (rfl | rfl | rfl | rfl | rfl) <;> decide

/-- Witness for `c10_link_filter_no_subset_validation`, applying the
decoded-array branch at the concrete environment. -/
theorem c10_link_filter_no_subset_validation_witness :
    extractLinksWithOllama c10Env c10Doc [] [] = [evilURL] :=
  (c10_link_filter_no_subset_validation c10Env c10Doc [] []).1
    (("[\x22https://evil.example/phish\x22]").toList) [evilURL]
    (by simp [extractLinks, extractLinksVisit, c10Doc, firstHref, c10Env,
      allFailEnv])
    rfl rfl

/-! ## API server (src/api/server.go)

The database and scraper dependencies of the handlers are oracles.  The
batch fan-out runs one goroutine per URL, each writing only its own index
of the results slice under the mutex, with a WaitGroup barrier before the
summary is computed; that concurrency is modelled as an index-preserving
map followed by the summary fold. -/

/-- The server's collaborators as oracles. -/
structure ServerEnv where
  scrapeEnv : ScrapeEnv
  cfg : ScraperConfig
  /-- `db.GetByURL`. -/
  getByURL : Str → Except Str (Option ScrapedData)
  /-- `db.SaveScrapedData`, observed only through its outcome. -/
  save : ScrapedData → Except Str Unit

/-- Decoded body of `POST /api/scrape`. -/
structure ScrapeRequest where
  url : Str
  force : Bool

/-- Decoded body of `POST /api/scrape/batch`. -/
structure BatchScrapeRequest where
  urls : List Str
  force : Bool

/-- `api.BatchResult`. -/
structure BatchResult where
  url : Str
  success : Bool
  data : Option ScrapedData
  error : Str
  cached : Bool
deriving DecidableEq

/-- `api.BatchSummary`. -/
structure BatchSummary where
  total : Nat
  success : Nat
  failed : Nat
  cached : Nat
  scraped : Nat
deriving DecidableEq

/-- `api.BatchScrapeResponse`. -/
structure BatchScrapeResponse where
  results : List BatchResult
  summary : BatchSummary
deriving DecidableEq

/-- The cache check of `processSingleURL` (src/api/server.go lines
357-370): consulted only when `force` is unset, a hit requires a
successful read returning a record. -/
def cacheLookup (env : ServerEnv) (force : Bool) (url : Str) :
    Option ScrapedData :=
  if force = false then
    match env.getByURL url with
    | .ok (some existing) => some { existing with cached := true }
    | _ => none
  else none

/-- Model of `processSingleURL` (src/api/server.go lines 356-396): cache
hit short-circuits as cached success; otherwise the URL is scraped, a
scrape error becomes an isolated failed item, and a save failure is only
logged. -/
def processSingleURL (env : ServerEnv) (force : Bool) (url : Str) :
    BatchResult :=
  match cacheLookup env force url with
  | some d => ⟨url, true, some d, [], true⟩
  | none =>
    match Scrape env.scrapeEnv env.cfg url with
    | .error e => ⟨url, false, none, e, false⟩
    | .ok result =>
      let _ := env.save result
      ⟨url, true, some result, [], false⟩

/-- The scrape-then-respond tail of `handleScrape` (src/api/server.go
lines 191-207): a save failure is logged and the computed record is
still returned with status 200. -/
def scrapeAndRespond (env : ServerEnv) (url : Str) :
    Nat × Except Str ScrapedData :=
  match Scrape env.scrapeEnv env.cfg url with
  | .error e => (500, .error ((("scraping failed: ").toList) ++ e))
  | .ok result =>
    let _ := env.save result
    (200, .ok result)

/-- Model of `handleScrape` (src/api/server.go lines 159-208) from the
decoded request on. -/
def handleScrape (env : ServerEnv) (req : ScrapeRequest) :
    Nat × Except Str ScrapedData :=
  if req.url = [] then (400, .error (("url is required").toList))
  else if req.force = false then
    match env.getByURL req.url with
    | .error _ => (500, .error (("database error").toList))
    | .ok (some existing) => (200, .ok { existing with cached := true })
    | .ok none => scrapeAndRespond env req.url
  else scrapeAndRespond env req.url

/-- One step of the summary loop (src/api/server.go lines 334-345). -/
def summaryStep (s : BatchSummary) (r : BatchResult) : BatchSummary :=
  if r.success then
    if r.cached then
      { s with success := s.success + 1, cached := s.cached + 1 }
    else
      { s with success := s.success + 1, scraped := s.scraped + 1 }
  else { s with failed := s.failed + 1 }

/-- The summary computed after all items complete (src/api/server.go
lines 333-345). -/
def summarize (results : List BatchResult) : BatchSummary :=
  results.foldl summaryStep ⟨results.length, 0, 0, 0, 0⟩

/-- Model of `handleBatchScrape` (src/api/server.go lines 290-353) from
the decoded request on. -/
def handleBatchScrape (env : ServerEnv) (req : BatchScrapeRequest) :
    Except (Nat × Str) BatchScrapeResponse :=
  if req.urls.length = 0 then
    .error (400, ("urls array is required").toList)
  else if 50 < req.urls.length then
    .error (400, ("maximum 50 URLs per batch").toList)
  else
    let results := req.urls.map (processSingleURL env req.force)
    .ok ⟨results, summarize results⟩

theorem summaryStep_total (s : BatchSummary) (r : BatchResult) :
    (summaryStep s r).total = s.total := by
  unfold summaryStep
  split
  · split <;> rfl
  · rfl

theorem summarize_total (rs : List BatchResult) :
    (summarize rs).total = rs.length := by
  have key : ∀ (init : BatchSummary) (l : List BatchResult),
      (l.foldl summaryStep init).total = init.total := by
    intro init l
    induction l generalizing init with
    | nil => rfl
    | cons r t ih => rw [List.foldl_cons, ih, summaryStep_total]
  exact key _ rs

/-- The processed item always carries its own URL. -/
theorem processSingleURL_url (env : ServerEnv) (force : Bool) (u : Str) :
    (processSingleURL env force u).url = u := by
  unfold processSingleURL
  cases cacheLookup env force u with
  | some d => rfl
  | none =>
    dsimp only
    cases Scrape env.scrapeEnv env.cfg u with
    | error e => rfl
    | ok result => rfl

/-- An unparsable URL makes `Scrape` fail with the validation error. -/
theorem scrape_invalid_url (env : ScrapeEnv) (cfg : ScraperConfig)
    (u : Str) (hp : env.urlParse u = none) :
    Scrape env cfg u = .error (("invalid URL").toList) := by
  unfold Scrape
  rw [hp]

/-- Claim C4: for every batch request of N URLs (1 ≤ N ≤ 50) where URL k
is invalid (unparsable, and not served from cache), the response holds N
results; item k has success=false and a nonempty error; every item
carries the URL of its input position (index-addressed order); every
other item that is reachable — cached, or whose scrape succeeds — has
success=true; and the summary is computed from the completed result list
with total = N. -/
theorem c4_batch_isolation (env : ServerEnv) (req : BatchScrapeRequest)
    (k : Nat)
    (hn1 : 1 ≤ req.urls.length) (hn2 : req.urls.length ≤ 50)
    (hbadk : ∀ u, req.urls[k]? = some u →
      env.scrapeEnv.urlParse u = none ∧
      (req.force = true ∨ env.getByURL u = .ok none)) :
    ∃ resp : BatchScrapeResponse, handleBatchScrape env req = .ok resp ∧
      resp.results.length = req.urls.length ∧
      (∀ (j : Nat) (u : Str), req.urls[j]? = some u →
        ∃ r : BatchResult, resp.results[j]? = some r ∧ r.url = u) ∧
      (∀ r : BatchResult, resp.results[k]? = some r →
        r.success = false ∧ r.error ≠ []) ∧
      (∀ (j : Nat) (u : Str), j ≠ k → req.urls[j]? = some u →
        ((req.force = false ∧
            ∃ d0 : ScrapedData, env.getByURL u = .ok (some d0)) ∨
          (Scrape env.scrapeEnv env.cfg u).isOk = true) →
        ∃ r : BatchResult, resp.results[j]? = some r ∧ r.success = true) ∧
      resp.summary = summarize resp.results ∧
      resp.summary.total = req.urls.length := by
  have hne : ¬ req.urls.length = 0 := by omega
  have hgt : ¬ 50 < req.urls.length := by omega
  have hhb : handleBatchScrape env req =
      .ok ⟨req.urls.map (processSingleURL env req.force),
        summarize (req.urls.map (processSingleURL env req.force))⟩ := by
    unfold handleBatchScrape
    rw [if_neg hne, if_neg hgt]
  refine ⟨_, hhb, ?_, ?_, ?_, ?_, rfl, ?_⟩
  · show (req.urls.map (processSingleURL env req.force)).length =
      req.urls.length
    exact List.length_map _ _
  · intro j u hj
    refine ⟨processSingleURL env req.force u, ?_,
      processSingleURL_url env req.force u⟩
    rw [List.getElem?_map, hj]
    rfl
  · intro r hr
    rw [List.getElem?_map] at hr
    cases hk : req.urls[k]? with
    | none => rw [hk] at hr; simp at hr
    | some u =>
      rw [hk] at hr
      simp only [Option.map] at hr
      obtain ⟨hp, hmiss⟩ := hbadk u hk
      have hcl : cacheLookup env req.force u = none := by
        unfold cacheLookup
        rcases hmiss with hforce | hget
        · simp [hforce]
        · cases hf : req.force
          · simp [hget]
          · simp
      have hinv := scrape_invalid_url env.scrapeEnv env.cfg u hp
      have hru : r = processSingleURL env req.force u := (Option.some.inj hr).symm
      subst hru
      unfold processSingleURL
      rw [hcl, hinv]
      dsimp only
      exact ⟨rfl, by decide⟩
  · intro j u hjk hj hreach
    refine ⟨processSingleURL env req.force u, ?_, ?_⟩
    · rw [List.getElem?_map, hj]
      rfl
    · rcases hreach with ⟨hforce, d0, hget⟩ | hscr
      · have hcl : cacheLookup env req.force u =
            some { d0 with cached := true } := by
          unfold cacheLookup
          simp [hforce, hget]
        unfold processSingleURL
        rw [hcl]
      · cases hcl : cacheLookup env req.force u with
        | some d => unfold processSingleURL; rw [hcl]
        | none =>
          obtain ⟨result, hres⟩ :
              ∃ v, Scrape env.scrapeEnv env.cfg u = .ok v := by
            cases hx : Scrape env.scrapeEnv env.cfg u with
            | ok v => exact ⟨v, rfl⟩
            | error e2 =>
              rw [hx] at hscr
              simp [Except.isOk, Except.toBool] at hscr
          unfold processSingleURL
          rw [hcl, hres]
  · rw [summarize_total]
    simp

instance : Inhabited BatchResult := ⟨⟨[], false, none, [], false⟩⟩

instance : Inhabited BatchScrapeResponse := ⟨⟨[], ⟨0, 0, 0, 0, 0⟩⟩⟩

/-- A server whose URL parser rejects exactly the string `nonsense` and
whose cache is empty. -/
def c4Srv : ServerEnv :=
  { scrapeEnv := { allFailEnv with
      urlParse := fun u =>
        if u = ("nonsense").toList then none
        else some (("https").toList) }
    cfg := defaultCfg
    getByURL := fun _ => .ok none
    save := fun _ => .ok () }

/-- A batch of three URLs whose middle entry is invalid. -/
def c4Req : BatchScrapeRequest :=
  ⟨[("https://a.example/").toList, ("nonsense").toList,
    ("https://b.example/").toList], false⟩

/-- The batch response for `c4Req`. -/
def c4Resp : BatchScrapeResponse :=
  (handleBatchScrape c4Srv c4Req).toOption.getD default

/-- The middle item of that response. -/
def c4Item1 : BatchResult := (c4Resp.results[1]?).getD default

/-- Witness for `c4_batch_isolation` at the concrete three-URL batch with
an invalid middle URL. -/
theorem c4_batch_isolation_witness :
    handleBatchScrape c4Srv c4Req = .ok c4Resp ∧
    c4Resp.results.length = 3 ∧
    c4Item1.url = ("nonsense").toList ∧
    c4Item1.success = false ∧
    c4Item1.error ≠ [] ∧
    c4Resp.summary.total = 3 := by
  obtain ⟨resp, h1, h2, h3, h4, h5, h6, h7⟩ :=
    c4_batch_isolation c4Srv c4Req 1 (by decide) (by decide)
      (by
        intro u hu
        have hru : ("nonsense").toList = u := Option.some.inj hu
        refine ⟨?_, Or.inr ?_⟩ <;> rw [← hru] <;> rfl)
  have hresp : c4Resp = resp := by
    unfold c4Resp
    rw [h1]
    rfl
  obtain ⟨r1, hr1, hu1⟩ := h3 1 (("nonsense").toList) rfl
  obtain ⟨hs1, he1⟩ := h4 r1 hr1
  have hitem : c4Item1 = r1 := by
    unfold c4Item1
    rw [hresp, hr1]
    rfl
  refine ⟨by rw [hresp]; exact h1, by rw [hresp]; exact h2, ?_, ?_, ?_,
    by rw [hresp]; exact h7⟩
  · rw [hitem]; exact hu1
  · rw [hitem]; exact hs1
  · rw [hitem]; exact he1

/-- Claim C9: when the scrape pipeline succeeds but the persistence
write fails, the failure is only logged: the single-URL handler still
responds 200 with the computed record, and the batch item still reports
success with the record. -/
theorem c9_persistence_failure_logged_only (env : ServerEnv)
    (req : ScrapeRequest) (d : ScrapedData) (e : Str)
    (hurl : req.url ≠ [])
    (hmiss : req.force = true ∨ env.getByURL req.url = .ok none)
    (hscrape : Scrape env.scrapeEnv env.cfg req.url = .ok d)
    (_hsave : env.save d = .error e) :
    handleScrape env req = (200, .ok d) ∧
    processSingleURL env req.force req.url =
      ⟨req.url, true, some d, [], false⟩ := by
  have hsr : scrapeAndRespond env req.url = (200, .ok d) := by
    unfold scrapeAndRespond
    rw [hscrape]
  constructor
  · unfold handleScrape
    rw [if_neg hurl]
    rcases hmiss with hforce | hget
    · rw [hforce, if_neg (by decide)]
      exact hsr
    · cases hf : req.force
      · rw [if_pos rfl, hget]
        exact hsr
      · rw [if_neg (by decide)]
        exact hsr
  · have hcl : cacheLookup env req.force req.url = none := by
      unfold cacheLookup
      rcases hmiss with hforce | hget
      · simp [hforce]
      · cases hf : req.force
        · simp [hget]
        · simp
    unfold processSingleURL
    rw [hcl, hscrape]

instance : Inhabited ScrapedData :=
  ⟨⟨[], [], [], [], [], [], 0, 0, 0, false, {}, none⟩⟩

/-- The URL the persistence-failure witness scrapes. -/
def c9Url : Str := ("https://ok.example/").toList

/-- A server whose store read misses and whose write always fails. -/
def c9Srv : ServerEnv :=
  { scrapeEnv := allFailEnv
    cfg := defaultCfg
    getByURL := fun _ => .ok none
    save := fun _ => .error (("disk full").toList) }

/-- The record `Scrape` computes for `c9Url` under `allFailEnv`. -/
def c9Record : ScrapedData :=
  (Scrape allFailEnv defaultCfg c9Url).toOption.getD default

theorem c9_scrape_ok :
    Scrape allFailEnv defaultCfg c9Url = .ok c9Record := by
  obtain ⟨d, hd⟩ := scrape_ok_of_stages allFailEnv defaultCfg c9Url
    (("https").toList) ⟨200, [], some (.mk .text [] [] [])⟩
    (.mk .text [] [] []) rfl (Or.inr rfl) rfl rfl rfl
  unfold c9Record
  rw [hd]
  rfl

/-- Witness for `c9_persistence_failure_logged_only` at the concrete
always-failing store. -/
theorem c9_persistence_failure_logged_only_witness :
    handleScrape c9Srv ⟨c9Url, true⟩ = (200, .ok c9Record) ∧
    processSingleURL c9Srv true c9Url =
      ⟨c9Url, true, some c9Record, [], false⟩ :=
  c9_persistence_failure_logged_only c9Srv ⟨c9Url, true⟩ c9Record
    (("disk full").toList) (by decide) (Or.inl rfl) c9_scrape_ok rfl

end Scraper
